import Mathlib

/-!
Verification of the checkout/order/payment subsystem of the gvoiceus
storefront (core/views.py and core/models.py).

Monetary values (Python `Decimal`) are embedded as rationals (`ℚ`);
`Decimal.quantize(Decimal("0.01"))` under the default context rounding
(ROUND_HALF_EVEN) is embedded as `q2d`.  Database rows become Lean
structures, querysets become lists, and each view handler becomes a
function from explicit state to explicit state.
-/

namespace GVoice

/-- Round a rational to the nearest integer, ties going to the even
neighbour — the rounding used by Python `Decimal.quantize` in the default
context (ROUND_HALF_EVEN). -/
def rhe (x : ℚ) : ℤ :=
  let f := ⌊x⌋
  let r := x - (f : ℚ)
  if r < 1/2 then f
  else if 1/2 < r then f + 1
  else if f % 2 = 0 then f else f + 1

/-- views.py `_q2d`: `Decimal(x).quantize(Decimal("0.01"))` — round to two
decimal places, half to even. -/
def q2d (x : ℚ) : ℚ := (rhe (x * 100) : ℚ) / 100

/-- core/models.py `Product` — the fields the checkout path reads.
`currency` is `none` when the column is NULL; the empty string is the
other Python-falsy value the views guard against. -/
structure ProductR where
  pid : Nat
  name : String
  price : ℚ
  currency : Option String
  stock : Nat
  is_active : Bool
deriving DecidableEq, Repr

/-- core/models.py `CartItem`: a product reference plus a quantity. -/
structure CartItemR where
  product : ProductR
  quantity : ℤ
deriving DecidableEq, Repr

/-- One line of the snapshot dict built in `_build_cart_snapshot`
(views.py 773-780).  `unit_price` and `line_total` are stored already
quantized, as the source stores `str(_q2d(...))`. -/
structure SnapItem where
  product_id : Nat
  name : String
  unit_price : ℚ
  qty : ℤ
  line_total : ℚ
  currency : String
deriving DecidableEq, Repr

/-- Python `str.lower()` on the ASCII texts the handlers receive,
character by character. -/
def strLower (s : String) : String := String.mk (s.data.map Char.toLower)

/-- Python `str.upper()` on the ASCII currency codes. -/
def strUpper (s : String) : String := String.mk (s.data.map Char.toUpper)

/-- Python `set.add`: the accumulator keeps one copy of each value. -/
def setInsert (l : List String) (s : String) : List String :=
  if s ∈ l then l else l ++ [s]

/-- Python `p.currency or "USD"`: `None` and `""` are falsy. -/
def orUSD : Option String → String
  | none => "USD"
  | some s => if s = "" then "USD" else s

/-- The snapshot line appended for a product surviving with quantity
`qty` (views.py 770-780): `line = _q2d(Decimal(qty) * p.price)`. -/
def snapLine (p : ProductR) (qty : ℤ) : SnapItem :=
  { product_id := p.pid
    name := p.name
    unit_price := q2d p.price
    qty := qty
    line_total := q2d ((qty : ℚ) * p.price)
    currency := orUSD p.currency }

/-- The `for it in items_qs` loop of `_build_cart_snapshot`
(views.py 763-780): clamp the requested quantity to stock when
`p.stock and p.stock > 0`, skip (`continue`) lines whose quantity ends
up `<= 0`, and emit a snapshot line for the rest, in cart order. -/
def snapLoop : List CartItemR → List SnapItem
  | [] => []
  | it :: rest =>
    let p := it.product
    let qty := if 0 < p.stock then min it.quantity (p.stock : ℤ) else it.quantity
    if qty ≤ 0 then snapLoop rest
    else snapLine p qty :: snapLoop rest

/-- views.py `_build_cart_snapshot` (752-789).  The queryset filters
`product__is_active=True`; the loop is `snapLoop`.  The source
accumulates `subtotal += line` per emitted line and finally returns
`_q2d(subtotal)`, so the subtotal is `q2d` of the sum of the emitted
`line_total`s; the `currencies` set is the set of emitted currencies,
and the mixed-currency check compares its cardinality with 1. -/
def _build_cart_snapshot (cart : List CartItemR) :
    Except String (List SnapItem × ℚ × String) :=
  let lines := snapLoop (cart.filter (fun it => it.product.is_active))
  if lines.isEmpty then .error "Cart is empty"
  else
    let curs := (lines.map (fun l => l.currency)).foldl setInsert []
    if 1 < curs.length then .error "Mixed currency cart is not supported"
    else .ok (lines, q2d ((lines.map (fun l => l.line_total)).sum), curs.head?.getD "USD")

/-- The clamped quantity a cart line is processed with (views.py
765-767): clamped by stock exactly when `stock > 0`. -/
def clampQty (p : ProductR) (q : ℤ) : ℤ :=
  if 0 < p.stock then min q (p.stock : ℤ) else q

/-- Claim-facing (spec §8): the unrounded `quantity × unit price` of
each cart line surviving the active filter and the stock clamp, in cart
order. -/
def rawLineTotals (cart : List CartItemR) : List ℚ :=
  (cart.filter (fun it => it.product.is_active)).filterMap (fun it =>
    if clampQty it.product it.quantity ≤ 0 then none
    else some ((clampQty it.product it.quantity : ℚ) * it.product.price))

/-! ### Order / Payment / Cart rows -/

/-- An uploaded file, as far as the handlers inspect it
(`request.FILES` entries carry a name and a byte size). -/
structure FileR where
  fname : String
  size : Nat
deriving DecidableEq, Repr

/-- core/models.py `Order` — the fields touched by the checkout and
reconciliation handlers.  `data` is the JSON audit bag; the handlers only
ever store the latest webhook payload into it, so it is embedded as the
optional payload (`order.data["webhook"]`). -/
structure OrderR where
  oid : String
  order_code : String
  user_id : Option Nat
  email : String
  currency : String
  subtotal : ℚ
  total : ℚ
  status : String
  items_json : List SnapItem
  processing_status : String
  provider_order_no : String
  dataWebhook : Option (List (String × String))
deriving DecidableEq, Repr

/-- The `choices` of `Order.status` declared in core/models.py 265-271. -/
def orderStatusChoices : List String :=
  ["pending", "paid", "failed", "cancelled", "expired"]

/-- core/models.py `OrderItem` — durable per-line copy plus the two
fulfillment file slots. -/
structure OrderItemR where
  order_oid : String
  product_id : Nat
  name : String
  unit_price : ℚ
  qty : ℤ
  line_total : ℚ
  processing_status : String
  delivery_file : Option FileR
  user_file : Option FileR
deriving DecidableEq, Repr

/-- core/models.py `Payment` — fields touched by the handlers.  `meta`
updates made by the webhook only ever merge in the payload under the
`"webhook"` key, embedded as `metaWebhook`. -/
structure PaymentR where
  order_id : String
  method : String
  status : String
  amount : ℚ
  currency : String
  provider_ref : String
  metaWebhook : Option (List (String × String))
deriving DecidableEq, Repr

/-- core/models.py `Cart`: a per-user cart owning its items. -/
structure CartR where
  user_id : Nat
  items : List CartItemR
deriving DecidableEq, Repr

/-- The database state the reconciliation/checkout handlers read and
write.  `payments` is ordered most-recent-first (Payment.Meta declares
`ordering = ["-created_at"]`), so `order.payments.order_by("-created_at")
.first()` is the first list entry whose `order_id` matches. -/
structure Db where
  orders : List OrderR
  payments : List PaymentR
  carts : List CartR
deriving DecidableEq, Repr

/-- Django `Order.objects.get(id=...)` (None when `DoesNotExist`). -/
def findOrderById (db : Db) (i : String) : Option OrderR :=
  db.orders.find? (fun o => o.oid == i)

/-- Django `Order.objects.get(order_code=...)` (None when `DoesNotExist`). -/
def findOrderByCode (db : Db) (c : String) : Option OrderR :=
  db.orders.find? (fun o => o.order_code == c)

/-- Django `order.payments.order_by("-created_at").first()`. -/
def mostRecentPayment (db : Db) (ooid : String) : Option PaymentR :=
  db.payments.find? (fun p => p.order_id == ooid)

/-- Django `order.save(...)`: replace the row with primary key `o.oid`. -/
def updateOrder (db : Db) (o : OrderR) : Db :=
  { db with orders := db.orders.map (fun x => if x.oid == o.oid then o else x) }

/-- Django `pay.save(...)` on the payment returned by `mostRecentPayment`:
replace the first payment row of the order. -/
def replaceFirstPayment (ooid : String) (f : PaymentR → PaymentR) :
    List PaymentR → List PaymentR
  | [] => []
  | p :: t =>
    if p.order_id == ooid then f p :: t else p :: replaceFirstPayment ooid f t

/-- Django `Cart.objects.get(user_id=uid)` then `cart.items.all().delete()`
(a missing cart is a no-op via the `Cart.DoesNotExist` pass). -/
def clearCartOfUser (db : Db) (uid : Nat) : Db :=
  { db with carts := db.carts.map (fun c =>
      if c.user_id == uid then { c with items := [] } else c) }

/-- The items of the user's persisted cart ([] when the user has none). -/
def cartItemsOfUser (db : Db) (uid : Nat) : List CartItemR :=
  match db.carts.find? (fun c => c.user_id == uid) with
  | some c => c.items
  | none => []

/-! ### Order creation -/

/-- views.py `_create_order_from_cart` (791-819): build the snapshot,
create the Order with `status="pending"`, `total = subtotal`, and the
OrderItem copies.  The random `order_code` and UUID primary key are
inputs.  An error from the snapshot builder propagates before any row is
created. -/
def _create_order_from_cart (uid : Nat) (email : String) (cart : List CartItemR)
    (code oid : String) : Except String (OrderR × List OrderItemR) := do
  let (items, subtotal, currency) ← _build_cart_snapshot cart
  let order : OrderR :=
    { oid := oid
      order_code := code
      user_id := some uid
      email := email
      currency := currency
      subtotal := subtotal
      total := subtotal
      status := "pending"
      items_json := items
      processing_status := "running"
      provider_order_no := ""
      dataWebhook := none }
  let bulk := items.map (fun it =>
    { order_oid := oid
      product_id := it.product_id
      name := it.name
      unit_price := it.unit_price
      qty := it.qty
      line_total := it.line_total
      processing_status := "running"
      delivery_file := none
      user_file := none : OrderItemR })
  return (order, bulk)

/-- Order creation as a transition on the Order table: on failure the
table is returned unchanged and no order is reported. -/
def createOrderDb (db : Db) (uid : Nat) (email : String) (cart : List CartItemR)
    (code oid : String) : Db × Option OrderR :=
  match _create_order_from_cart uid email cart code oid with
  | .error _ => (db, none)
  | .ok (o, _) => ({ db with orders := db.orders ++ [o] }, some o)

/-! ### Gateway B: SSLCommerz (views.py `pay_with_sslcommerz`) -/

/-- The injected configuration read by `pay_with_sslcommerz`:
store credentials (empty string = missing/falsy) and the three fixed
FX rates (`FX_USD_BDT` / `FX_EUR_BDT` / `FX_GBP_BDT`). -/
structure SslcConfig where
  store_id : String
  store_pass : String
  fx_usd_bdt : ℚ
  fx_eur_bdt : ℚ
  fx_gbp_bdt : ℚ
deriving DecidableEq, Repr

/-- Python `currency or "BDT"` ("" and None are falsy). -/
def orBDT (c : String) : String := if c = "" then "BDT" else c

/-- views.py `_to_bdt` (918-938): identity (rate 1) for BDT, otherwise a
fixed-rate conversion quantized to 2 dp; a missing rate — `rates.get`
returning nothing, or a falsy (zero) configured rate — raises. -/
def _to_bdt (cfg : SslcConfig) (amount : ℚ) (currency : String) :
    Except String (ℚ × ℚ) :=
  let cur := strUpper (orBDT currency)
  if cur = "BDT" then .ok (q2d amount, 1)
  else
    let rate? : Option ℚ :=
      if cur = "USD" then some cfg.fx_usd_bdt
      else if cur = "EUR" then some cfg.fx_eur_bdt
      else if cur = "GBP" then some cfg.fx_gbp_bdt
      else none
    match rate? with
    | some rate =>
      if rate = 0 then
        .error ("Currency " ++ cur ++ " is not supported for SSLCommerz without a rate.")
      else .ok (q2d (amount * rate), rate)
    | none =>
      .error ("Currency " ++ cur ++ " is not supported for SSLCommerz without a rate.")

/-- What `pay_with_sslcommerz` has done by the time it reaches (or
refuses to reach) the outbound HTTP call.  `Payment.objects.create` only
runs after a `"SUCCESS"` gateway response, so none of these outcomes
contains a Payment row; `cancelled` carries the just-created Order after
`order.status = "cancelled"; order.save(update_fields=["status"])`. -/
inductive SslcOutcome where
  | credsMissing
  | cartError (msg : String)
  | cancelled (order : OrderR) (msg : String)
  | proceed (order : OrderR) (amountBdt fxRate : ℚ)
deriving DecidableEq, Repr

/-- views.py `pay_with_sslcommerz` (883-998) up to the gateway call:
missing credentials fail before any Order exists; a snapshot error fails
before any Order exists; an unsupported currency or a converted amount
below `Decimal("10.00")` cancels the just-created Order with a
user-facing message and creates no Payment.  The source interpolates the
converted amount into the minimum-amount message; the embedding keeps
the fixed text of the message without the number. -/
def pay_with_sslcommerz (cfg : SslcConfig) (uid : Nat) (email : String)
    (cart : List CartItemR) (code oid : String) : SslcOutcome :=
  if cfg.store_id = "" ∨ cfg.store_pass = "" then .credsMissing
  else
    match _create_order_from_cart uid email cart code oid with
    | .error e => .cartError e
    | .ok (order, _) =>
      match _to_bdt cfg order.total (orBDT order.currency) with
      | .error e => .cancelled { order with status := "cancelled" } e
      | .ok (amountBdt, fxRate) =>
        if amountBdt < 10 then
          .cancelled { order with status := "cancelled" }
            "Amount too small for SSLCommerz (min 10.00)."
        else .proceed order amountBdt fxRate

/-! ### 2Checkout webhook (views.py `two_co_webhook`) -/

/-- Dict `payload.get(k)` combined with Python `or`-chaining: a missing key
and an empty-string value are both falsy, so both become `none`. -/
def pget (payload : List (String × String)) (k : String) : Option String :=
  match payload.lookup k with
  | some v => if v = "" then none else some v
  | none => none

/-- Python `needle in hay` on lists of characters (substring containment). -/
def listHasSub (needle : List Char) : List Char → Bool
  | [] => needle.isEmpty
  | c :: t => needle.isPrefixOf (c :: t) || listHasSub needle t

/-- Python `needle in hay` for strings. -/
def strHasSub (needle hay : String) : Bool :=
  listHasSub needle.toList hay.toList

/-- views.py 1067: `payload.get("merchant_order_id") or
payload.get("REFNOEXT") or payload.get("ref")`. -/
def tcoMerchantId (payload : List (String × String)) : Option String :=
  pget payload "merchant_order_id" <|> pget payload "REFNOEXT" <|> pget payload "ref"

/-- views.py 1068: `(payload.get("ORDERSTATUS") or payload.get("status")
or "").lower()`. -/
def tcoStatusText (payload : List (String × String)) : String :=
  strLower ((pget payload "ORDERSTATUS" <|> pget payload "status").getD "")

/-- views.py 1084: `payload.get("order-ext-ref") or
payload.get("ORDERREF") or ""`, then tested for truthiness. -/
def tcoFallbackCode (payload : List (String × String)) : Option String :=
  pget payload "order-ext-ref" <|> pget payload "ORDERREF"

/-- views.py `_verify_tco_signature` (1055-1061): unconditionally true in
DEBUG; otherwise the verification is an unimplemented stub that returns
False whether or not a secret word is configured. -/
def _verify_tco_signature (debug : Bool) (secret : Option String) : Bool :=
  if debug then true
  else
    match secret with
    | none => false
    | some _ => false

/-- The Order.status written by the webhook for a given (already
lowercased) provider status text (views.py 1093-1106).  Note the
cancelled branch writes the single-l string `"canceled"`. -/
def mapTcoOrderStatus (s : String) : String :=
  if strHasSub "approved" s || strHasSub "complete" s || strHasSub "paid" s
      || s == "success" then "paid"
  else if strHasSub "declined" s || strHasSub "refunded" s || strHasSub "failed" s then
    "failed"
  else if strHasSub "canceled" s || strHasSub "cancelled" s then "canceled"
  else "pending"

/-- views.py `two_co_webhook` (1063-1128) as a transition on the
database, returning the HTTP status code and the new state.  The
signature-verify stub cannot raise, so the except-path 400 is dead; the
remaining 400 is `not verified and not settings.DEBUG`.  Timestamps
(`webhook_last_at`, `updated_at`) are not modelled; the raw payload
stored for audit is. -/
def two_co_webhook (debug : Bool) (secret : Option String)
    (payload : List (String × String)) (db : Db) : Nat × Db :=
  let status_text := tcoStatusText payload
  let verified := _verify_tco_signature debug secret
  if ¬verified ∧ ¬debug then (400, db)
  else
    match tcoMerchantId payload with
    | none => (200, db)
    | some mid =>
      let order? :=
        match findOrderById db mid with
        | some o => some o
        | none =>
          match tcoFallbackCode payload with
          | some c => findOrderByCode db c
          | none => none
      match order? with
      | none => (200, db)
      | some order =>
        let newStatus := mapTcoOrderStatus status_text
        let db1 :=
          if newStatus = "paid" then
            match order.user_id with
            | some u => clearCartOfUser db u
            | none => db
          else db
        let provNo := (pget payload "order_number" <|> pget payload "REFNO").getD
          order.provider_order_no
        let db2 := updateOrder db1
          { order with status := newStatus, provider_order_no := provNo,
                       dataWebhook := some payload }
        let db3 :=
          match mostRecentPayment db2 order.oid with
          | some p =>
            if p.method = "stripe" ∨ p.method = "sslcommerz" ∨ p.method = "coin" then
              let pst :=
                if newStatus = "paid" then "succeeded"
                else if newStatus = "failed" ∨ newStatus = "canceled" then "cancelled"
                else "processing"
              let ref := (pget payload "REFNO").getD p.provider_ref
              let ps := replaceFirstPayment order.oid
                (fun q => { q with status := pst, provider_ref := ref,
                                   metaWebhook := some payload }) db2.payments
              { db2 with payments := ps }
            else db2
          | none => db2
        (200, db3)

/-! ### Synchronous return pages -/

/-- views.py `checkout_success` (1132-1152): 404 (`none`) when the order
code resolves to nothing; otherwise, when the most recent Payment is
still `processing`/`created`, optimistically mark it `succeeded`, the
Order `paid` with fulfillment `running`, and clear the owner's cart. -/
def checkout_success (db : Db) (oc : String) : Option Db :=
  match findOrderByCode db oc with
  | none => none
  | some order =>
    match mostRecentPayment db order.oid with
    | some p =>
      if p.status = "processing" ∨ p.status = "created" then
        let ps := replaceFirstPayment order.oid
          (fun q => { q with status := "succeeded" }) db.payments
        let db1 := { db with payments := ps }
        let db2 := updateOrder db1
          { order with status := "paid", processing_status := "running" }
        let db3 :=
          match order.user_id with
          | some u => clearCartOfUser db2 u
          | none => db2
        some db3
      else some db
    | none => some db

/-- views.py `checkout_cancel` (1154-1169): a missing order is ignored;
a `pending` Order becomes `cancelled`; a most-recent Payment still
`processing`/`created` becomes `cancelled`. -/
def checkout_cancel (db : Db) (oc : String) : Db :=
  match findOrderByCode db oc with
  | none => db
  | some order =>
    let db1 :=
      if order.status = "pending" then
        updateOrder db { order with status := "cancelled" }
      else db
    match mostRecentPayment db1 order.oid with
    | some p =>
      if p.status = "processing" ∨ p.status = "created" then
        let ps := replaceFirstPayment order.oid
          (fun q => { q with status := "cancelled" }) db1.payments
        { db1 with payments := ps }
      else db1
    | none => db1

/-! ### Customer per-item upload (views.py `user_item_upload_file`) -/

/-- The observable outcome of `user_item_upload_file`: Http404 for a
non-owner, the three user-facing rejection messages, or a stored file.
The non-fatal MIME-type warning (views.py 1499-1502) changes no state
and is not modelled. -/
inductive UploadOutcome where
  | notFound
  | notPaid
  | alreadyUploaded
  | noFile
  | tooLarge
  | stored
deriving DecidableEq, Repr

/-- views.py `user_item_upload_file` (1471-1508) as a function of the
requesting user, the item's parent order, the item, and the posted file
(`none` when neither `file` nor `output` was posted). -/
def user_item_upload_file (requesterId : Nat) (order : OrderR)
    (item : OrderItemR) (file? : Option FileR) : UploadOutcome × OrderItemR :=
  if order.user_id ≠ some requesterId then (.notFound, item)
  else if order.status ≠ "paid" then (.notPaid, item)
  else
    match item.user_file with
    | some _ => (.alreadyUploaded, item)
    | none =>
      match file? with
      | none => (.noFile, item)
      | some f =>
        if 50 * 1024 * 1024 < f.size then (.tooLarge, item)
        else (.stored, { item with user_file := some f })

/-! ### Concrete sample rows for evaluating the handlers -/

def orderC1 : OrderR :=
  { oid := "o1", order_code := "GV-AAAA0001", user_id := none, email := "a@b.c",
    currency := "USD", subtotal := 10, total := 10, status := "pending",
    items_json := [], processing_status := "running", provider_order_no := "",
    dataWebhook := none }

def dbC1 : Db := { orders := [orderC1], payments := [], carts := [] }

def payloadC1 : List (String × String) :=
  [("merchant_order_id", "o1"), ("ORDERSTATUS", "CANCELLED")]

def prodC2 : ProductR :=
  { pid := 1, name := "A", price := 10, currency := some "USD", stock := 5,
    is_active := true }

def orderC2 : OrderR :=
  { oid := "o2", order_code := "GV-TEST0001", user_id := some 7, email := "u@x.y",
    currency := "USD", subtotal := 30, total := 30, status := "pending",
    items_json := [], processing_status := "running", provider_order_no := "",
    dataWebhook := none }

def payC2 : PaymentR :=
  { order_id := "o2", method := "stripe", status := "processing", amount := 30,
    currency := "USD", provider_ref := "", metaWebhook := none }

def dbC2 : Db :=
  { orders := [orderC2], payments := [payC2],
    carts := [{ user_id := 7, items := [{ product := prodC2, quantity := 3 }] }] }

def prodC3 : ProductR :=
  { pid := 2, name := "Half", price := 1/200, currency := some "USD", stock := 0,
    is_active := true }

def cartC3 : List CartItemR :=
  [{ product := prodC3, quantity := 1 }, { product := prodC3, quantity := 1 }]

def linesC3 : List SnapItem := [snapLine prodC3 1, snapLine prodC3 1]

def subC3 : ℚ := q2d ((linesC3.map (fun l => l.line_total)).sum)

def prodC4a : ProductR :=
  { pid := 10, name := "U", price := 5, currency := some "USD", stock := 0,
    is_active := true }

def prodC4b : ProductR :=
  { pid := 11, name := "E", price := 5, currency := some "EUR", stock := 0,
    is_active := true }

def cartC4 : List CartItemR :=
  [{ product := prodC4a, quantity := 1 }, { product := prodC4b, quantity := 1 }]

def dbC4 : Db := { orders := [], payments := [], carts := [] }

def cfgC5 : SslcConfig :=
  { store_id := "store", store_pass := "pass", fx_usd_bdt := 1, fx_eur_bdt := 130,
    fx_gbp_bdt := 140 }

def prodC5 : ProductR :=
  { pid := 3, name := "P", price := 999/100, currency := some "USD", stock := 0,
    is_active := true }

def cartC5 : List CartItemR := [{ product := prodC5, quantity := 1 }]

def linesC5 : List SnapItem := [snapLine prodC5 1]

def subC5 : ℚ := q2d ((linesC5.map (fun l => l.line_total)).sum)

def orderC5 : OrderR :=
  { oid := "o5", order_code := "GV-C5000001", user_id := some 9, email := "e@x.y",
    currency := "USD", subtotal := subC5, total := subC5, status := "pending",
    items_json := linesC5, processing_status := "running",
    provider_order_no := "", dataWebhook := none }

def itemsC5 : List OrderItemR :=
  [{ order_oid := "o5", product_id := 3, name := "P",
     unit_price := q2d prodC5.price, qty := 1,
     line_total := q2d (((1 : ℤ) : ℚ) * prodC5.price),
     processing_status := "running", delivery_file := none, user_file := none }]

def dbC6 : Db := { orders := [], payments := [], carts := [] }

def payloadC6 : List (String × String) :=
  [("merchant_order_id", "zzz"), ("order-ext-ref", "GV-NONE")]

def prodC7a : ProductR :=
  { pid := 21, name := "A7", price := 2, currency := some "USD", stock := 3,
    is_active := true }

def prodC7b : ProductR :=
  { pid := 22, name := "B7", price := 3, currency := some "USD", stock := 0,
    is_active := true }

def prodC7c : ProductR :=
  { pid := 23, name := "C7", price := 4, currency := some "USD", stock := 9,
    is_active := false }

def prodC7d : ProductR :=
  { pid := 24, name := "D7", price := 5, currency := some "USD", stock := 0,
    is_active := true }

def cartC7 : List CartItemR :=
  [{ product := prodC7a, quantity := 5 }, { product := prodC7b, quantity := 4 },
   { product := prodC7c, quantity := 2 }, { product := prodC7d, quantity := 0 }]

def linesC7 : List SnapItem := [snapLine prodC7a 3, snapLine prodC7b 4]

def subC7 : ℚ := q2d ((linesC7.map (fun l => l.line_total)).sum)

def orderC8 : OrderR :=
  { oid := "o8", order_code := "GV-C8000001", user_id := some 5, email := "c8@x.y",
    currency := "USD", subtotal := 10, total := 10, status := "paid",
    items_json := [], processing_status := "running", provider_order_no := "",
    dataWebhook := none }

def itemC8 : OrderItemR :=
  { order_oid := "o8", product_id := 1, name := "I", unit_price := 10, qty := 1,
    line_total := 10, processing_status := "running", delivery_file := none,
    user_file := none }

def fileC8 : FileR := { fname := "req.pdf", size := 1000 }

def orderC9 : OrderR :=
  { oid := "o9", order_code := "GV-C9000001", user_id := some 3, email := "c9@x.y",
    currency := "BDT", subtotal := 20, total := 20, status := "pending",
    items_json := [], processing_status := "running", provider_order_no := "",
    dataWebhook := none }

def payC9 : PaymentR :=
  { order_id := "o9", method := "sslcommerz", status := "created", amount := 20,
    currency := "BDT", provider_ref := "t1", metaWebhook := none }

def dbC9 : Db := { orders := [orderC9], payments := [payC9], carts := [] }

def orderC10 : OrderR :=
  { oid := "oX", order_code := "GV-CA000001", user_id := some 4, email := "ca@x.y",
    currency := "USD", subtotal := 15, total := 15, status := "paid",
    items_json := [], processing_status := "running", provider_order_no := "",
    dataWebhook := none }

def payC10 : PaymentR :=
  { order_id := "oX", method := "stripe", status := "succeeded", amount := 15,
    currency := "USD", provider_ref := "r1", metaWebhook := none }

def dbC10 : Db := { orders := [orderC10], payments := [payC10], carts := [] }

/-! ### Arithmetic facts about `q2d` -/

theorem rhe_intCast (n : ℤ) : rhe (n : ℚ) = n := by
  unfold rhe
  simp

theorem q2d_int_div_100 (n : ℤ) : q2d ((n : ℚ) / 100) = (n : ℚ) / 100 := by
  unfold q2d
  rw [div_mul_cancel₀ _ (by norm_num : (100 : ℚ) ≠ 0), rhe_intCast]

theorem q2d_shape (x : ℚ) : ∃ n : ℤ, q2d x = (n : ℚ) / 100 :=
  ⟨rhe (x * 100), rfl⟩

theorem sum_shape_100 (L : List ℚ) (h : ∀ y ∈ L, ∃ n : ℤ, y = (n : ℚ) / 100) :
    ∃ N : ℤ, L.sum = (N : ℚ) / 100 := by
  induction L with
  | nil => exact ⟨0, by simp⟩
  | cons a t ih =>
    obtain ⟨n, hn⟩ := h a (List.mem_cons_self a t)
    obtain ⟨N, hN⟩ := ih (fun y hy => h y (List.mem_cons_of_mem a hy))
    refine ⟨n + N, ?_⟩
    push_cast
    rw [List.sum_cons, hn, hN]
    ring

/-- The map `q2d` is the identity on any sum of already-quantized values. -/
theorem q2d_sum_of_quantized (L : List ℚ) (h : ∀ y ∈ L, ∃ n : ℤ, y = (n : ℚ) / 100) :
    q2d L.sum = L.sum := by
  obtain ⟨N, hN⟩ := sum_shape_100 L h
  rw [hN, q2d_int_div_100]

theorem snapLoop_eq_filterMap (l : List CartItemR) :
    snapLoop l = l.filterMap (fun it =>
      if clampQty it.product it.quantity ≤ 0 then none
      else some (snapLine it.product (clampQty it.product it.quantity))) := by
  induction l with
  | nil => rfl
  | cons it rest ih =>
    rw [snapLoop, List.filterMap_cons]
    simp only [clampQty]
    by_cases hq : (if 0 < it.product.stock then min it.quantity (it.product.stock : ℤ)
        else it.quantity) ≤ 0
    · simp [hq, ih, clampQty]
    · simp [hq, ih, clampQty]

theorem snapLoop_line_totals (l : List CartItemR) :
    (snapLoop l).map (fun s => s.line_total)
      = (l.filterMap (fun it =>
          if clampQty it.product it.quantity ≤ 0 then none
          else some ((clampQty it.product it.quantity : ℚ) * it.product.price))).map q2d := by
  induction l with
  | nil => rfl
  | cons it rest ih =>
    rw [snapLoop, List.filterMap_cons]
    simp only [clampQty]
    by_cases hq : (if 0 < it.product.stock then min it.quantity (it.product.stock : ℤ)
        else it.quantity) ≤ 0
    · simp [hq, ih, clampQty]
    · simp [hq, ih, clampQty, snapLine]


/-! ### Lemmas about the row-update helpers -/

theorem updateOrder_payments (db : Db) (o : OrderR) :
    (updateOrder db o).payments = db.payments := rfl

theorem updateOrder_carts (db : Db) (o : OrderR) :
    (updateOrder db o).carts = db.carts := rfl

theorem clearCartOfUser_orders (db : Db) (u : Nat) :
    (clearCartOfUser db u).orders = db.orders := rfl

theorem clearCartOfUser_payments (db : Db) (u : Nat) :
    (clearCartOfUser db u).payments = db.payments := rfl

/-- Replacing (by primary key) the row that a `find?`-by-code lookup
returned makes the lookup return the replacement, provided primary keys
are unique and the replacement keeps the code. -/
theorem find?_update_of_nodup (l : List OrderR) (c : String) (o o' : OrderR)
    (hfind : l.find? (fun x => x.order_code == c) = some o)
    (hoid : o'.oid = o.oid) (hcode : o'.order_code = o.order_code)
    (hnodup : (l.map (fun x => x.oid)).Nodup) :
    (l.map (fun x => if x.oid == o'.oid then o' else x)).find?
      (fun x => x.order_code == c) = some o' := by
  induction l with
  | nil => simp at hfind
  | cons hd t ih =>
    rw [List.map_cons, List.nodup_cons] at hnodup
    rw [List.map_cons]
    by_cases hc : hd.order_code = c
    · rw [List.find?_cons_of_pos _ (by simpa using hc)] at hfind
      have hho : hd = o := by simpa using hfind
      subst hho
      rw [if_pos (by simp [hoid])]
      exact List.find?_cons_of_pos _ (by simp [hcode, hc])
    · rw [List.find?_cons_of_neg _ (by simpa using hc)] at hfind
      have hmem := List.mem_of_find?_eq_some hfind
      have hne : ¬(hd.oid == o'.oid) = true := by
        simp only [hoid, beq_iff_eq]
        intro he
        exact hnodup.1 (he ▸ List.mem_map_of_mem (fun x => x.oid) hmem)
      rw [if_neg hne, List.find?_cons_of_neg _ (by simpa using hc)]
      exact ih hfind hnodup.2

/-- Database-level version of `find?_update_of_nodup` for `updateOrder`. -/
theorem findOrderByCode_updateOrder (db : Db) (c : String) (o o' : OrderR)
    (hfind : findOrderByCode db c = some o)
    (hoid : o'.oid = o.oid) (hcode : o'.order_code = o.order_code)
    (hnodup : (db.orders.map (fun x => x.oid)).Nodup) :
    findOrderByCode (updateOrder db o') c = some o' :=
  find?_update_of_nodup db.orders c o o' hfind hoid hcode hnodup

/-- Rewriting the first payment of an order rewrites exactly the row
that `mostRecentPayment` resolves, as long as the rewrite keeps the
foreign key. -/
theorem replaceFirstPayment_find? (ps : List PaymentR) (ooid : String)
    (f : PaymentR → PaymentR) (p : PaymentR)
    (hfind : ps.find? (fun q => q.order_id == ooid) = some p)
    (hf : (f p).order_id = p.order_id) :
    (replaceFirstPayment ooid f ps).find? (fun q => q.order_id == ooid)
      = some (f p) := by
  induction ps with
  | nil => simp at hfind
  | cons hd t ih =>
    by_cases hh : hd.order_id = ooid
    · rw [List.find?_cons_of_pos _ (by simpa using hh)] at hfind
      have hho : hd = p := by simpa using hfind
      subst hho
      rw [replaceFirstPayment, if_pos (by simpa using hh)]
      exact List.find?_cons_of_pos _ (by simp [hf, hh])
    · rw [List.find?_cons_of_neg _ (by simpa using hh)] at hfind
      rw [replaceFirstPayment, if_neg (by simpa using hh)]
      rw [List.find?_cons_of_neg _ (by simpa using hh)]
      exact ih hfind

/-- After `clearCartOfUser`, the user's cart holds no items. -/
theorem find?_clear_list (uid : Nat) (cs : List CartR) :
    (match (cs.map (fun c => if c.user_id == uid then { c with items := [] } else c)).find?
        (fun c => c.user_id == uid) with
     | some c => c.items
     | none => ([] : List CartItemR)) = [] := by
  induction cs with
  | nil => rfl
  | cons hd t ih =>
    by_cases hh : hd.user_id = uid
    · rw [List.map_cons, if_pos (by simpa using hh)]
      rw [List.find?_cons_of_pos _ (by simpa using hh)]
    · rw [List.map_cons, if_neg (by simpa using hh)]
      rw [List.find?_cons_of_neg _ (by simpa using hh)]
      exact ih

theorem cartItemsOfUser_clearCart (db : Db) (uid : Nat) :
    cartItemsOfUser (clearCartOfUser db uid) uid = [] := by
  unfold cartItemsOfUser clearCartOfUser
  exact find?_clear_list uid db.carts

/-- Unpacking a successful snapshot build: the returned lines are the
loop's output over the active lines, and the subtotal is `q2d` of the
sum of their line totals. -/
theorem build_snapshot_ok (cart : List CartItemR) (lines : List SnapItem)
    (sub : ℚ) (cur : String)
    (h : _build_cart_snapshot cart = .ok (lines, sub, cur)) :
    lines = snapLoop (cart.filter (fun it => it.product.is_active)) ∧
    sub = q2d ((lines.map (fun l => l.line_total)).sum) := by
  simp only [_build_cart_snapshot] at h
  split_ifs at h with h1 h2
  simp only [Except.ok.injEq, Prod.mk.injEq] at h
  obtain ⟨hl, hs, -⟩ := h
  subst hl
  exact ⟨rfl, hs.symm⟩

/-- Claim C3: for every cart whose surviving lines are all in one
currency, the snapshot builder's subtotal equals the sum over lines of
`quantity × unit price` with each line total individually quantized to
2 decimal places before summing; whenever that differs from quantizing
the sum of unrounded line totals once, the subtotal is not the
once-quantized value. -/
theorem snapshot_subtotal_rounds_per_line (cart : List CartItemR)
    (lines : List SnapItem) (sub : ℚ) (cur : String)
    (h : _build_cart_snapshot cart = .ok (lines, sub, cur)) :
    sub = ((rawLineTotals cart).map q2d).sum ∧
    (q2d (rawLineTotals cart).sum ≠ ((rawLineTotals cart).map q2d).sum →
      sub ≠ q2d (rawLineTotals cart).sum) := by
  obtain ⟨hl, hs⟩ := build_snapshot_ok cart lines sub cur h
  have hmap : lines.map (fun l => l.line_total) = (rawLineTotals cart).map q2d := by
    rw [hl]
    simp only [rawLineTotals]
    exact snapLoop_line_totals _
  have hsub : sub = ((rawLineTotals cart).map q2d).sum := by
    rw [hs, hmap]
    apply q2d_sum_of_quantized
    intro y hy
    rw [List.mem_map] at hy
    obtain ⟨x, -, rfl⟩ := hy
    exact q2d_shape x
  refine ⟨hsub, fun hne => ?_⟩
  rw [hsub]
  exact fun he => hne he.symm

/-- Evaluating the two-line 0.005-priced cart: per-line rounding makes
every line total 0, so the subtotal is 0, while rounding the raw sum
once gives 0.01. -/
theorem eval_rounding_C3 :
    subC3 = 0 ∧ ((rawLineTotals cartC3).map q2d).sum = 0 ∧
      q2d (rawLineTotals cartC3).sum = 1/100 := by
  refine ⟨?_, ?_, ?_⟩ <;>
    norm_num [subC3, linesC3, snapLine, prodC3, cartC3, rawLineTotals, clampQty,
      orUSD, q2d, rhe, List.filter, List.filterMap]

/-- Witness for C3: a cart of two lines priced 0.005 (3 decimal places):
per-line rounding gives 0.00 + 0.00 = 0.00, while rounding the summed
raw totals once would give 0.01; the builder returns 0.00. -/
theorem snapshot_subtotal_rounds_per_line_witness :
    _build_cart_snapshot cartC3 = .ok (linesC3, subC3, "USD") ∧
    (subC3 = ((rawLineTotals cartC3).map q2d).sum ∧
      (q2d (rawLineTotals cartC3).sum ≠ ((rawLineTotals cartC3).map q2d).sum →
        subC3 ≠ q2d (rawLineTotals cartC3).sum)) ∧
    subC3 = 0 ∧ q2d (rawLineTotals cartC3).sum = 1/100 :=
  ⟨by rfl,
   snapshot_subtotal_rounds_per_line cartC3 linesC3 subC3 "USD" (by rfl),
   eval_rounding_C3.1, eval_rounding_C3.2.2⟩

/-- Claim C7: for every cart line read by the snapshot builder, the
requested quantity is clamped to the product's stock exactly when
stock > 0 (stock = 0 is treated as unlimited and never clamps), and any
line whose clamped quantity is ≤ 0 is dropped from the snapshot. -/
theorem snapshot_clamp_policy (cart : List CartItemR) (lines : List SnapItem)
    (sub : ℚ) (cur : String)
    (h : _build_cart_snapshot cart = .ok (lines, sub, cur)) :
    lines = (cart.filter (fun it => it.product.is_active)).filterMap (fun it =>
      if clampQty it.product it.quantity ≤ 0 then none
      else some (snapLine it.product (clampQty it.product it.quantity))) ∧
    (∀ p q, 0 < p.stock → clampQty p q = min q (p.stock : ℤ)) ∧
    (∀ p q, p.stock = 0 → clampQty p q = q) := by
  obtain ⟨hl, -⟩ := build_snapshot_ok cart lines sub cur h
  refine ⟨?_, ?_, ?_⟩
  · rw [hl]
    exact snapLoop_eq_filterMap _
  · intro p q hp
    simp [clampQty, hp]
  · intro p q hp
    simp [clampQty, hp]

/-- Witness for C7: stock 3 clamps a requested 5 to 3; stock 0 leaves a
requested 4 alone; an inactive product and a zero-quantity line are
dropped. -/
theorem snapshot_clamp_policy_witness :
    _build_cart_snapshot cartC7 = .ok (linesC7, subC7, "USD") ∧
    linesC7 = (cartC7.filter (fun it => it.product.is_active)).filterMap (fun it =>
      if clampQty it.product it.quantity ≤ 0 then none
      else some (snapLine it.product (clampQty it.product it.quantity))) :=
  ⟨by rfl,
   (snapshot_clamp_policy cartC7 linesC7 subC7 "USD" (by rfl)).1⟩

/-- Claim C4: a cart whose surviving lines span two or more currencies
makes the snapshot builder fail with the mixed-currency error, and the
order-creation path driven by it leaves the Order table unchanged and
reports no order. -/
theorem mixed_currency_no_order (cart : List CartItemR) (uid : Nat)
    (email code oid : String) (db : Db)
    (hmix : 1 < (((snapLoop (cart.filter (fun it => it.product.is_active))).map
        (fun l => l.currency)).foldl setInsert []).length) :
    _build_cart_snapshot cart = .error "Mixed currency cart is not supported" ∧
    createOrderDb db uid email cart code oid = (db, none) := by
  have hne : (snapLoop (cart.filter (fun it => it.product.is_active))).isEmpty = false := by
    cases hsl : snapLoop (cart.filter (fun it => it.product.is_active)) with
    | nil => rw [hsl] at hmix; simp at hmix
    | cons a l => rfl
  have hsnap : _build_cart_snapshot cart = .error "Mixed currency cart is not supported" := by
    simp only [_build_cart_snapshot, hne, Bool.false_eq_true, if_false]
    rw [if_pos hmix]
  refine ⟨hsnap, ?_⟩
  have hcreate : _create_order_from_cart uid email cart code oid
      = .error "Mixed currency cart is not supported" := by
    simp only [_create_order_from_cart]
    rw [hsnap]
    rfl
  simp only [createOrderDb, hcreate]

/-- Witness for C4: a two-line cart in USD and EUR. -/
theorem mixed_currency_no_order_witness :
    _build_cart_snapshot cartC4 = .error "Mixed currency cart is not supported" ∧
    createOrderDb dbC4 1 "w@x.y" cartC4 "GV-C4000001" "o4" = (dbC4, none) :=
  mixed_currency_no_order cartC4 1 "w@x.y" "GV-C4000001" "o4" dbC4 (by decide)

/-- Claim C5: a Gateway B (SSLCommerz) checkout whose order total
converts, at the configured fixed rate, to a settlement amount strictly
below 10.00 BDT is rejected with a user-facing error, creates no
Payment, and the just-created Order transitions to status cancelled. -/
theorem sslc_min_amount_cancels (cfg : SslcConfig) (uid : Nat) (email : String)
    (cart : List CartItemR) (code oid : String) (order : OrderR)
    (its : List OrderItemR) (amt rate : ℚ)
    (hid : cfg.store_id ≠ "") (hpw : cfg.store_pass ≠ "")
    (hord : _create_order_from_cart uid email cart code oid = .ok (order, its))
    (hconv : _to_bdt cfg order.total (orBDT order.currency) = .ok (amt, rate))
    (hmin : amt < 10) :
    pay_with_sslcommerz cfg uid email cart code oid
      = .cancelled { order with status := "cancelled" }
          "Amount too small for SSLCommerz (min 10.00)." ∧
    ({ order with status := "cancelled" } : OrderR).status = "cancelled" := by
  have hcreds : ¬(cfg.store_id = "" ∨ cfg.store_pass = "") := by
    rintro (h | h)
    · exact hid h
    · exact hpw h
  refine ⟨?_, rfl⟩
  simp only [pay_with_sslcommerz, if_neg hcreds, hord, hconv]
  rw [if_pos hmin]

/-- Evaluating the 9.99 USD order at rate 1.00: the settlement amount is
9.99 BDT, strictly below the 10.00 minimum. -/
theorem eval_min_C5 : q2d (orderC5.total * cfgC5.fx_usd_bdt) < 10 := by
  norm_num [orderC5, subC5, linesC5, snapLine, prodC5, cfgC5, q2d, rhe]

/-- Witness for C5: total 9.99 USD at FX rate 1.00 is cancelled. -/
theorem sslc_min_amount_cancels_witness :
    pay_with_sslcommerz cfgC5 9 "e@x.y" cartC5 "GV-C5000001" "o5"
      = .cancelled { orderC5 with status := "cancelled" }
          "Amount too small for SSLCommerz (min 10.00)." ∧
    ({ orderC5 with status := "cancelled" } : OrderR).status = "cancelled" :=
  sslc_min_amount_cancels cfgC5 9 "e@x.y" cartC5 "GV-C5000001" "o5" orderC5
    itemsC5 (q2d (orderC5.total * cfgC5.fx_usd_bdt)) cfgC5.fx_usd_bdt
    (by decide) (by decide) (by rfl) (by rfl) eval_min_C5

/-- Claim C8: on a paid Order, the owner's first `user_file` upload
stores the file, every later upload attempt is rejected with an
informational message leaving the stored file unchanged, and an upload
on a non-paid Order is rejected storing nothing. -/
theorem user_file_write_once (uid : Nat) (order : OrderR) (item : OrderItemR)
    (howner : order.user_id = some uid) :
    (∀ f : FileR, order.status = "paid" → item.user_file = none →
        f.size ≤ 50 * 1024 * 1024 →
        user_item_upload_file uid order item (some f)
          = (.stored, { item with user_file := some f }) ∧
        ∀ later : Option FileR,
          user_item_upload_file uid order { item with user_file := some f } later
            = (.alreadyUploaded, { item with user_file := some f })) ∧
    (∀ anyf : Option FileR, order.status ≠ "paid" →
        user_item_upload_file uid order item anyf = (.notPaid, item)) := by
  constructor
  · intro f hpaid hfree hsize
    constructor
    · simp [user_item_upload_file, howner, hpaid, hfree, Nat.not_lt.mpr hsize]
    · intro later
      simp [user_item_upload_file, howner, hpaid]
  · intro anyf hnp
    simp [user_item_upload_file, howner, hnp]

/-- Witness for C8: the owner of a paid order uploads a 1000-byte file
once, and a later attempt bounces with the already-uploaded message. -/
theorem user_file_write_once_witness :
    (user_item_upload_file 5 orderC8 itemC8 (some fileC8)
        = (.stored, { itemC8 with user_file := some fileC8 }) ∧
      user_item_upload_file 5 orderC8 { itemC8 with user_file := some fileC8 }
          (some fileC8)
        = (.alreadyUploaded, { itemC8 with user_file := some fileC8 })) ∧
    user_item_upload_file 5 { orderC8 with status := "pending" } itemC8
        (some fileC8)
      = (.notPaid, itemC8) :=
  have h := user_file_write_once 5 orderC8 itemC8 (by decide)
  have h2 := (user_file_write_once 5 { orderC8 with status := "pending" } itemC8
    (by decide)).2 (some fileC8) (by decide)
  ⟨⟨((h.1 fileC8 (by decide) (by decide) (by decide)).1),
    ((h.1 fileC8 (by decide) (by decide) (by decide)).2 (some fileC8))⟩, h2⟩

/-- Claim C1 (code bug evidence): a webhook whose status text is a
cancelled variant writes the single-l string `"canceled"` into
Order.status, a value that is not among the model's declared
Order.STATUS choices, while the spec's target value `"cancelled"` is. -/
theorem webhook_cancelled_writes_invalid_status :
    ((two_co_webhook true none payloadC1 dbC1).2.orders.map (fun o => o.status))
      = ["canceled"] ∧
    "canceled" ∉ orderStatusChoices ∧ "cancelled" ∈ orderStatusChoices := by
  refine ⟨by decide, by decide, by decide⟩

/-- Claim C6: a webhook POST that passes signature acceptance (verified
or debug mode) whose merchant order id and fallback order code resolve
to no existing Order is answered HTTP 200 with the database unchanged;
a 400 response happens exactly on the requests failing signature
verification outside debug mode (the stub verifier accepts only in
debug). -/
theorem webhook_unresolved_acked (debug : Bool) (secret : Option String)
    (payload : List (String × String)) (db : Db)
    (h1 : ∀ i, tcoMerchantId payload = some i → findOrderById db i = none)
    (h2 : ∀ c, tcoFallbackCode payload = some c → findOrderByCode db c = none) :
    ((_verify_tco_signature debug secret = true ∨ debug = true) →
      two_co_webhook debug secret payload db = (200, db)) ∧
    ((two_co_webhook debug secret payload db).1 = 400 ↔ debug = false) := by
  cases debug with
  | false =>
    have hv : _verify_tco_signature false secret = false := by
      cases secret <;> rfl
    have hres : two_co_webhook false secret payload db = (400, db) := by
      simp [two_co_webhook, hv]
    refine ⟨?_, by rw [hres]; simp⟩
    rintro (ha | ha)
    · rw [hv] at ha; exact absurd ha (by simp)
    · exact absurd ha (by simp)
  | true =>
    have hres : two_co_webhook true secret payload db = (200, db) := by
      simp only [two_co_webhook, _verify_tco_signature]
      rw [if_neg (by simp)]
      cases hm : tcoMerchantId payload with
      | none => rfl
      | some mid =>
        simp only [h1 mid hm]
        cases hc : tcoFallbackCode payload with
        | none => rfl
        | some c => simp only [h2 c hc]
    refine ⟨fun _ => hres, ?_⟩
    rw [hres]
    simp

/-- Witness for C6: in debug mode, an id and code that match nothing
are acknowledged with 200 and an untouched database. -/
theorem webhook_unresolved_acked_witness :
    two_co_webhook true none payloadC6 dbC6 = (200, dbC6) :=
  (webhook_unresolved_acked true none payloadC6 dbC6
    (fun _ _ => rfl) (fun _ _ => rfl)).1 (Or.inr rfl)

/-- Claim C2: when `checkout_success` resolves an Order whose most
recent Payment is still processing/created, it marks that Payment
succeeded, the Order paid with fulfillment running, and deletes every
CartItem of the owner's persisted cart. -/
theorem checkout_success_flips (db : Db) (oc : String) (order : OrderR)
    (p : PaymentR) (uid : Nat)
    (hnodup : (db.orders.map (fun x => x.oid)).Nodup)
    (hfind : findOrderByCode db oc = some order)
    (hpay : mostRecentPayment db order.oid = some p)
    (hps : p.status = "processing" ∨ p.status = "created")
    (huid : order.user_id = some uid) :
    ∃ db2, checkout_success db oc = some db2 ∧
      findOrderByCode db2 oc
        = some { order with status := "paid", processing_status := "running" } ∧
      mostRecentPayment db2 order.oid = some { p with status := "succeeded" } ∧
      cartItemsOfUser db2 uid = [] := by
  have hrun : checkout_success db oc
      = some (clearCartOfUser (updateOrder
          { db with payments := replaceFirstPayment order.oid (fun q => { q with status := "succeeded" }) db.payments }
          { order with status := "paid", processing_status := "running" }) uid) := by
    simp only [checkout_success, hfind, hpay, huid]
    rw [if_pos hps]
  refine ⟨_, hrun, ?_, ?_, ?_⟩
  · exact findOrderByCode_updateOrder _ oc order _ hfind rfl rfl hnodup
  · exact replaceFirstPayment_find? db.payments order.oid _ p hpay rfl
  · exact cartItemsOfUser_clearCart _ uid

/-- Witness for C2: a processing Stripe-coded payment on a pending
order; the return flips everything and the 3-item cart is emptied. -/
theorem checkout_success_flips_witness :
    ∃ db2, checkout_success dbC2 "GV-TEST0001" = some db2 ∧
      findOrderByCode db2 "GV-TEST0001"
        = some { orderC2 with status := "paid", processing_status := "running" } ∧
      mostRecentPayment db2 orderC2.oid = some { payC2 with status := "succeeded" } ∧
      cartItemsOfUser db2 7 = [] :=
  checkout_success_flips dbC2 "GV-TEST0001" orderC2 payC2 7
    (by decide) (by decide) (by decide) (by decide) (by decide)

/-- Claim C10: `checkout_success` is a no-op when the most recent
Payment is no longer processing/created, and running it twice leaves
exactly the state of running it once. -/
theorem checkout_success_idempotent (db : Db) (oc : String)
    (hnodup : (db.orders.map (fun x => x.oid)).Nodup) :
    (∀ order p, findOrderByCode db oc = some order →
        mostRecentPayment db order.oid = some p →
        ¬(p.status = "processing" ∨ p.status = "created") →
        checkout_success db oc = some db) ∧
    (∀ db2, checkout_success db oc = some db2 →
        checkout_success db2 oc = some db2) := by
  constructor
  · intro order p hfind hpay hns
    simp only [checkout_success, hfind, hpay]
    rw [if_neg hns]
  · intro db2 h
    cases hfind : findOrderByCode db oc with
    | none =>
      simp only [checkout_success, hfind] at h
      exact absurd h (by simp)
    | some order =>
      cases hpay : mostRecentPayment db order.oid with
      | none =>
        simp only [checkout_success, hfind, hpay] at h
        obtain rfl : db = db2 := by simpa using h
        simp only [checkout_success, hfind, hpay]
      | some p =>
        by_cases hs : p.status = "processing" ∨ p.status = "created"
        · simp only [checkout_success, hfind, hpay] at h
          rw [if_pos hs] at h
          set db1 : Db := { db with payments := replaceFirstPayment order.oid (fun q => { q with status := "succeeded" }) db.payments } with hdb1
          set o2 : OrderR := { order with status := "paid", processing_status := "running" } with ho2
          have hfind2 : findOrderByCode (updateOrder db1 o2) oc = some o2 :=
            findOrderByCode_updateOrder db1 oc order o2 hfind (by rw [ho2])
              (by rw [ho2]) hnodup
          have hpay2 : mostRecentPayment (updateOrder db1 o2) o2.oid
              = some { p with status := "succeeded" } :=
            replaceFirstPayment_find? db.payments order.oid
              (fun q => { q with status := "succeeded" }) p hpay rfl
          cases huid : order.user_id with
          | some u =>
            simp only [huid] at h
            obtain rfl := Option.some.inj h
            have hfind3 : findOrderByCode (clearCartOfUser (updateOrder db1 o2) u) oc
                = some o2 := hfind2
            have hpay3 : mostRecentPayment (clearCartOfUser (updateOrder db1 o2) u) o2.oid
                = some { p with status := "succeeded" } := hpay2
            simp only [checkout_success, hfind3, hpay3]
            rw [if_neg (by simp)]
          | none =>
            simp only [huid] at h
            obtain rfl := Option.some.inj h
            simp only [checkout_success, hfind2, hpay2]
            rw [if_neg (by simp)]
        · simp only [checkout_success, hfind, hpay] at h
          rw [if_neg hs] at h
          obtain rfl : db = db2 := by simpa using h
          simp only [checkout_success, hfind, hpay]
          rw [if_neg hs]

/-- Claim C9: `checkout_cancel` sets a pending Order to cancelled and
its most recent processing/created Payment to cancelled, and repeating
the call is a no-op: cancelling twice equals cancelling once. -/
theorem checkout_cancel_spec (db : Db) (oc : String)
    (hnodup : (db.orders.map (fun x => x.oid)).Nodup) :
    (∀ order p, findOrderByCode db oc = some order → order.status = "pending" →
        mostRecentPayment db order.oid = some p →
        (p.status = "processing" ∨ p.status = "created") →
        findOrderByCode (checkout_cancel db oc) oc
          = some { order with status := "cancelled" } ∧
        mostRecentPayment (checkout_cancel db oc) order.oid
          = some { p with status := "cancelled" }) ∧
    checkout_cancel (checkout_cancel db oc) oc = checkout_cancel db oc := by
  constructor
  · intro order p hfind horder hpay hps
    have hpay' : mostRecentPayment (updateOrder db { order with status := "cancelled" }) order.oid = some p := hpay
    have hA : checkout_cancel db oc
        = { updateOrder db { order with status := "cancelled" } with payments := replaceFirstPayment order.oid (fun q => { q with status := "cancelled" }) db.payments } := by
      simp only [checkout_cancel, hfind]
      rw [if_pos horder]
      simp only [hpay']
      rw [if_pos hps]
      rfl
    constructor
    · rw [hA]
      exact findOrderByCode_updateOrder db oc order _ hfind rfl rfl hnodup
    · rw [hA]
      exact replaceFirstPayment_find? db.payments order.oid _ p hpay rfl
  · cases hfind : findOrderByCode db oc with
    | none =>
      have hA : checkout_cancel db oc = db := by
        simp only [checkout_cancel, hfind]
      rw [hA]
      exact hA
    | some order =>
      by_cases hpend : order.status = "pending"
      · have hfind1 : findOrderByCode (updateOrder db { order with status := "cancelled" }) oc
            = some { order with status := "cancelled" } :=
          findOrderByCode_updateOrder db oc order _ hfind rfl rfl hnodup
        cases hpay : mostRecentPayment db order.oid with
        | none =>
          have hpay' : mostRecentPayment (updateOrder db { order with status := "cancelled" }) order.oid = none := hpay
          have hA : checkout_cancel db oc = updateOrder db { order with status := "cancelled" } := by
            simp only [checkout_cancel, hfind]
            rw [if_pos hpend]
            simp only [hpay']
          rw [hA]
          simp only [checkout_cancel, hfind1]
          rw [if_neg (by simp)]
          simp only [hpay']
        | some p =>
          by_cases hps : p.status = "processing" ∨ p.status = "created"
          · have hpay' : mostRecentPayment (updateOrder db { order with status := "cancelled" }) order.oid = some p := hpay
            have hA : checkout_cancel db oc
                = { updateOrder db { order with status := "cancelled" } with payments := replaceFirstPayment order.oid (fun q => { q with status := "cancelled" }) db.payments } := by
              simp only [checkout_cancel, hfind]
              rw [if_pos hpend]
              simp only [hpay']
              rw [if_pos hps]
              rfl
            have hfindA : findOrderByCode
                { updateOrder db { order with status := "cancelled" } with payments := replaceFirstPayment order.oid (fun q => { q with status := "cancelled" }) db.payments } oc
                = some { order with status := "cancelled" } := hfind1
            have hpayA : mostRecentPayment
                { updateOrder db { order with status := "cancelled" } with payments := replaceFirstPayment order.oid (fun q => { q with status := "cancelled" }) db.payments }
                order.oid
                = some { p with status := "cancelled" } :=
              replaceFirstPayment_find? db.payments order.oid _ p hpay rfl
            rw [hA]
            simp only [checkout_cancel, hfindA]
            rw [if_neg (by simp)]
            simp only [hpayA]
            rw [if_neg (by simp)]
          · have hpay' : mostRecentPayment (updateOrder db { order with status := "cancelled" }) order.oid = some p := hpay
            have hA : checkout_cancel db oc = updateOrder db { order with status := "cancelled" } := by
              simp only [checkout_cancel, hfind]
              rw [if_pos hpend]
              simp only [hpay']
              rw [if_neg hps]
            rw [hA]
            simp only [checkout_cancel, hfind1]
            rw [if_neg (by simp)]
            simp only [hpay']
            rw [if_neg hps]
      · cases hpay : mostRecentPayment db order.oid with
        | none =>
          have hA : checkout_cancel db oc = db := by
            simp only [checkout_cancel, hfind]
            rw [if_neg hpend]
            simp only [hpay]
          rw [hA]
          exact hA
        | some p =>
          by_cases hps : p.status = "processing" ∨ p.status = "created"
          · have hA : checkout_cancel db oc
                = { db with payments := replaceFirstPayment order.oid (fun q => { q with status := "cancelled" }) db.payments } := by
              simp only [checkout_cancel, hfind]
              rw [if_neg hpend]
              simp only [hpay]
              rw [if_pos hps]
            have hfindA : findOrderByCode
                { db with payments := replaceFirstPayment order.oid (fun q => { q with status := "cancelled" }) db.payments } oc
                = some order := hfind
            have hpayA : mostRecentPayment
                { db with payments := replaceFirstPayment order.oid (fun q => { q with status := "cancelled" }) db.payments }
                order.oid
                = some { p with status := "cancelled" } :=
              replaceFirstPayment_find? db.payments order.oid _ p hpay rfl
            rw [hA]
            simp only [checkout_cancel, hfindA]
            rw [if_neg hpend]
            simp only [hpayA]
            rw [if_neg (by simp)]
          · have hA : checkout_cancel db oc = db := by
              simp only [checkout_cancel, hfind]
              rw [if_neg hpend]
              simp only [hpay]
              rw [if_neg hps]
            rw [hA]
            exact hA

/-- Witness for C9: a pending order with a created SSLCommerz payment
is cancelled along with the payment. -/
theorem checkout_cancel_spec_witness :
    findOrderByCode (checkout_cancel dbC9 "GV-C9000001") "GV-C9000001"
      = some { orderC9 with status := "cancelled" } ∧
    mostRecentPayment (checkout_cancel dbC9 "GV-C9000001") orderC9.oid
      = some { payC9 with status := "cancelled" } :=
  (checkout_cancel_spec dbC9 "GV-C9000001" (by decide)).1 orderC9 payC9
    (by decide) (by decide) (by decide) (by decide)

/-- Witness for C10: an order whose payment already succeeded is left
untouched by a repeat visit. -/
theorem checkout_success_idempotent_witness :
    checkout_success dbC10 "GV-CA000001" = some dbC10 :=
  (checkout_success_idempotent dbC10 "GV-CA000001" (by decide)).1
    orderC10 payC10 (by decide) (by decide) (by decide)

end GVoice
